import Mathlib

/-!
Verification development for the onvifeye ONVIF event monitor
(src/onvifeye.py). The definitions below are a shallow embedding of the
pure data manipulation performed by the script: the detection table kept
by `NotificationPuller.listen`, the per-handler ledger of
`EventHandler`, the relevance filters of `MediaSaverEventHandler` and
`EventExecHandler`, the save-path construction of `generate_save_path`,
the control flow of `save_video` / `save_image` (rendered as action
traces driven by an environment oracle), and the credential folding of
`uri_add_authentication` (rendered at the level of already-parsed URL
components and UTF-8 byte strings).

Python datetimes are modelled either as abstract instants (a type with
decidable equality, since the script only ever compares them for
equality in the ledger), as whole seconds since an epoch (for the
eviction arithmetic), or as a calendar record (where strftime formatting
matters).
-/

namespace Onvifeye

/-- Default value of `detection_expiry_seconds` (onvifeye.py line 84),
modelled in whole seconds. -/
def DEFAULT_DETECTION_EXPIRY_SECONDS : Nat := 60

/-- Sentinel appended to a detection name when the camera reports that the
sensor went inactive (onvifeye.py line 86). -/
def EVENT_NOT_HAPPENING_SUFFIX : String := "_False"

/-- Synthetic event name dispatched by `save_video` after a recording
attempt finishes (onvifeye.py line 88). -/
def VIDEO_ENDED_SYNTHETIC_EVENT : String := "VideoEnded"

/-- Python `str.endswith`, computed on the character list of the string. -/
def str_ends_with (s suffix : String) : Bool :=
  List.isSuffixOf suffix.data s.data

/-- Python dict lookup `d.get(k)` over an insertion-ordered association
list (Python dicts preserve insertion order); `k in d` is
`(dict_lookup k d).isSome`. -/
def dict_lookup {α : Type} (k : String) : List (String × α) → Option α
  | [] => none
  | (k2, v) :: rest => if k2 = k then some v else dict_lookup k rest

/-- Python dict assignment `d[k] = v`: overwrite the value in place when
the key is present, otherwise append the new pair at the end. -/
def dict_set {α : Type} (k : String) (v : α) : List (String × α) → List (String × α)
  | [] => [(k, v)]
  | (k2, v2) :: rest => if k2 = k then (k2, v) :: rest else (k2, v2) :: dict_set k v rest

/-- Keys of a dict, in insertion order. -/
def dict_keys {α : Type} (d : List (String × α)) : List String :=
  d.map Prod.fst

/-- The `camera_target_events` configuration value: either the wildcard
string `"*"` or a collection of event names (onvifeye.py lines 90, 132). -/
inductive TargetEvents where
  | wildcard : TargetEvents
  | names : List String → TargetEvents
deriving DecidableEq

/-- The fields of `CameraConfig` (onvifeye.py lines 121-149) that the
claims depend on. `camera_save_folder` is kept as path components. -/
structure CameraConfig where
  camera_id : String
  camera_target_events : TargetEvents
  camera_event_exec : String
  camera_save_folder : List String
  camera_clip_seconds : Nat
  camera_grab_stills_from_video : Bool
deriving DecidableEq

/-- `CameraConfig.is_event_targeted` (onvifeye.py lines 151-152): true when
`camera_target_events` is the literal one-character wildcard string or contains the
event name. -/
def is_event_targeted (cfg : CameraConfig) (event_name : String) : Bool :=
  match cfg.camera_target_events with
  | TargetEvents.wildcard => true
  | TargetEvents.names l => decide (event_name ∈ l)

/-- One `SimpleItem` of a NotificationMessage payload: a Name string and a
Value string (onvifeye.py line 232). -/
structure SimpleItem where
  name : String
  value : String
deriving DecidableEq

/-- The detection key derived from a `SimpleItem` in
`NotificationPuller.listen` (onvifeye.py lines 232-234): the raw name, with
`_False` appended unless Value is exactly the string "true". -/
def detection_key (item : SimpleItem) : String :=
  if item.value = "true" then item.name
  else item.name ++ EVENT_NOT_HAPPENING_SUFFIX

/-- Insert-if-absent into the detection table (onvifeye.py lines 235-236):
`if type_of_detection not in self.target_camera.detections:
self.target_camera.detections[type_of_detection] = datetime.now()`. -/
def insert_detection {α : Type} (detections : List (String × α)) (k : String) (now : α) :
    List (String × α) :=
  if (dict_lookup k detections).isSome then detections else detections ++ [(k, now)]

/-- Processing of one `SimpleItem` by the listen loop: derive the detection
key and insert it with the current instant when absent (onvifeye.py lines
232-236). -/
def listen_decode_item {α : Type} (detections : List (String × α)) (item : SimpleItem)
    (now : α) : List (String × α) :=
  insert_detection detections (detection_key item) now

/-- Python `timedelta.seconds` attribute for a non-negative delta of
`delta` whole seconds: the seconds-within-day component `delta % 86400`,
not the total number of seconds. -/
def timedelta_seconds_attr (delta : Nat) : Nat := delta % 86400

/-- The eviction pass in `NotificationPuller.listen` (onvifeye.py lines
243-250): delete every entry whose `(now - first_seen_at).seconds` exceeds
the expiry. Instants are whole seconds since an arbitrary epoch; the code
first collects the entries satisfying the condition and then deletes them,
which on a dict with unique keys is the filter below. -/
def evict_detections (now expiry : Nat) (detections : List (String × Nat)) :
    List (String × Nat) :=
  detections.filter (fun p => !(decide (timedelta_seconds_attr (now - p.2) > expiry)))

/-- `EventHandler.has_been_handled` (onvifeye.py lines 398-403): true when
some event of the snapshot is recorded in the ledger with the exact same
instant. -/
def has_been_handled {α : Type} [DecidableEq α]
    (handled detections : List (String × α)) : Bool :=
  detections.any (fun p => decide (dict_lookup p.1 handled = some p.2))

/-- `EventHandler.mark_as_handled` (onvifeye.py lines 405-407): record every
(event, instant) pair of the snapshot in the ledger. -/
def mark_as_handled {α : Type} (handled detections : List (String × α)) :
    List (String × α) :=
  detections.foldl (fun h p => dict_set p.1 p.2 h) handled

/-- The snapshot filter of `MediaSaverEventHandler.handle_events`
(onvifeye.py lines 446-450): keep entries whose key does not end in
`_False` and is targeted. -/
def media_relevant_detections {α : Type} (cfg : CameraConfig)
    (detections : List (String × α)) : List (String × α) :=
  detections.filter
    (fun p => !(str_ends_with p.1 EVENT_NOT_HAPPENING_SUFFIX) && is_event_targeted cfg p.1)

/-- The snapshot filter of `EventExecHandler.handle_events` (onvifeye.py
lines 498-500): keep entries whose key is targeted; there is no check of
the `_False` suffix in that handler. -/
def exec_relevant_detections {α : Type} (cfg : CameraConfig)
    (detections : List (String × α)) : List (String × α) :=
  detections.filter (fun p => is_event_targeted cfg p.1)

/-- One iteration of the inner loop of `MediaSaverEventHandler.handle_events`
(onvifeye.py lines 444-458), applied to the already-filtered snapshot
`relevant`: when the snapshot is non-empty, run the saver function unless
`has_been_handled`, and in either case mark the whole snapshot as handled.
Returns (whether the saver ran, the updated ledger). -/
def media_handler_step {α : Type} [DecidableEq α]
    (handled relevant : List (String × α)) : Bool × List (String × α) :=
  if relevant = [] then (false, handled)
  else if has_been_handled handled relevant then (false, mark_as_handled handled relevant)
  else (true, mark_as_handled handled relevant)

/-- One iteration of `EventExecHandler.handle_events` (onvifeye.py lines
495-510): filter the detection table by targeting only, and when the result
is non-empty and not yet handled, pass it to `execute_external_handler` and
mark it as handled. Returns (the dict handed to the external handler, if
any, and the updated ledger). -/
def exec_handler_step {α : Type} [DecidableEq α] (cfg : CameraConfig)
    (handled detections : List (String × α)) :
    Option (List (String × α)) × List (String × α) :=
  let relevant := exec_relevant_detections cfg detections
  if relevant = [] then (none, handled)
  else if has_been_handled handled relevant then (none, handled)
  else (some relevant, mark_as_handled handled relevant)

/-- A calendar instant, for claims where the `%Y%m%d-%H%M%S` formatting of
a datetime matters. -/
structure DT where
  year : Nat
  month : Nat
  day : Nat
  hour : Nat
  minute : Nat
  second : Nat
deriving DecidableEq

/-- Decimal rendering of a natural number left-padded with zeros to
`width` digits, as Python strftime field formatting does. -/
def pad_nat (width n : Nat) : String :=
  let s := toString n
  String.mk (List.replicate (width - s.length) '0') ++ s

/-- Python `dt.strftime("%Y%m%d-%H%M%S")` as used for media basenames
(onvifeye.py line 359) and external-handler descriptors (line 367). -/
def strftime_ts (t : DT) : String :=
  pad_nat 4 t.year ++ pad_nat 2 t.month ++ pad_nat 2 t.day ++ "-" ++
    pad_nat 2 t.hour ++ pad_nat 2 t.minute ++ pad_nat 2 t.second

/-- Module-level `DATA_DIR`, the home directory joined with `onvifeye` (onvifeye.py line
116), as path components under the abstract home directory. -/
def DATA_DIR (home : List String) : List String := home ++ ["onvifeye"]

/-- Module-level `VIDEO_DIR`, which is `DATA_DIR` joined with `videos` (onvifeye.py line 117). -/
def VIDEO_DIR (home : List String) : List String := DATA_DIR home ++ ["videos"]

/-- Module-level `IMAGE_DIR`, which is `DATA_DIR` joined with `images` (onvifeye.py line 118). -/
def IMAGE_DIR (home : List String) : List String := DATA_DIR home ++ ["images"]

/-- `generate_save_path` (onvifeye.py lines 357-362): the save path is
`save_folder / camera_id / strftime(incident_time).suffix`; the mkdir side
effects are dropped here, the returned path is what matters. -/
def generate_save_path (camera_id : String) (incident_time : DT)
    (save_folder : List String) (file_type_suffix : String) : List String :=
  save_folder ++ [camera_id, strftime_ts incident_time ++ "." ++ file_type_suffix]

/-- `incident_time = list(detections.values())[0]` (onvifeye.py lines 272
and 326): the first-seen instant of the first entry of the snapshot. -/
def incident_time_of (detections : List (String × DT)) : DT :=
  (detections.map Prod.snd).headD (DT.mk 0 0 0 0 0 0)

/-- The file path written by `save_video` (onvifeye.py lines 271-273): note
that the save folder argument is the module-level `VIDEO_DIR`, not the
configured `camera_save_folder`. -/
def save_video_path (home : List String) (cfg : CameraConfig)
    (detections : List (String × DT)) : List String :=
  generate_save_path cfg.camera_id (incident_time_of detections) (VIDEO_DIR home) "mp4"

/-- The file path written by `save_image` (onvifeye.py lines 326-328): the
save folder argument is the module-level `IMAGE_DIR`, not the configured
`camera_save_folder`. -/
def save_image_path (home : List String) (cfg : CameraConfig)
    (detections : List (String × DT)) : List String :=
  generate_save_path cfg.camera_id (incident_time_of detections) (IMAGE_DIR home) "jpg"

/-- The descriptor strings built by `execute_external_handler` (onvifeye.py
line 367): one `key/%Y%m%d-%H%M%S` string per entry of the snapshot. -/
def detections_as_str (relevant_detections : List (String × DT)) : List String :=
  relevant_detections.map (fun p => p.1 ++ "/" ++ strftime_ts p.2)

/-- The argv assembled by `execute_external_handler` (onvifeye.py lines
365-371): when the executable passes the runnability precondition, spawn
`[exe, camera_id] ++ descriptors`; otherwise log critically and spawn
nothing. -/
def execute_external_handler_argv (runnable : Bool) (handler_exe camera_id : String)
    (relevant_detections : List (String × DT)) : Option (List String) :=
  if runnable then some (handler_exe :: camera_id :: detections_as_str relevant_detections)
  else none

/-- Outcome of the spawned ffmpeg recording child as observed by
`process.communicate(timeout=...)` in `save_video`: normal completion,
`subprocess.TimeoutExpired`, or `ffmpeg.Error`. -/
inductive FfmpegWait where
  | completed : FfmpegWait
  | timedOut : FfmpegWait
  | failed : FfmpegWait
deriving DecidableEq

/-- Environment oracle for one `save_video` call: whether the target path
already exists, and how the ffmpeg child behaves. -/
structure SaveVideoEnv where
  file_exists : Bool
  ffmpeg_wait : FfmpegWait
deriving DecidableEq

/-- Observable actions of `save_video`, in program order. -/
inductive SaveAction where
  | mkdirParents : SaveAction
  | logSkipExists : SaveAction
  | spawnFfmpeg : SaveAction
  | waitChild : Nat → SaveAction
  | terminateChild : SaveAction
  | logTimeoutError : SaveAction
  | logFfmpegError : SaveAction
  | execVideoEnded : SaveAction
  | logClosed : SaveAction
deriving DecidableEq

/-- The control flow of `save_video` (onvifeye.py lines 271-301) as the
trace of actions it performs under the environment oracle. The existing-file
check happens before the try block, so its early return skips the finally
clause; the `except subprocess.TimeoutExpired` branch only logs and returns
(there is no kill or terminate call on the child), and the finally clause
dispatches the synthetic `VideoEnded` event whenever it is targeted. -/
def save_video_actions (cfg : CameraConfig) (clip_seconds : Nat) (env : SaveVideoEnv) :
    List SaveAction :=
  let finallyActs :=
    if is_event_targeted cfg VIDEO_ENDED_SYNTHETIC_EVENT then [SaveAction.execVideoEnded]
    else []
  if env.file_exists then
    [SaveAction.mkdirParents, SaveAction.logSkipExists]
  else
    match env.ffmpeg_wait with
    | FfmpegWait.completed =>
        [SaveAction.mkdirParents, SaveAction.spawnFfmpeg,
         SaveAction.waitChild (clip_seconds + 30)] ++ finallyActs ++ [SaveAction.logClosed]
    | FfmpegWait.timedOut =>
        [SaveAction.mkdirParents, SaveAction.spawnFfmpeg,
         SaveAction.waitChild (clip_seconds + 30), SaveAction.logTimeoutError] ++ finallyActs
    | FfmpegWait.failed =>
        [SaveAction.mkdirParents, SaveAction.spawnFfmpeg,
         SaveAction.waitChild (clip_seconds + 30), SaveAction.logFfmpegError] ++ finallyActs

/-- Environment oracle for one `save_image` call: whether the target path
already exists, whether the clip appears while `extract_frame_to_image`
polls for it, and whether the ffmpeg invocation succeeds. -/
structure SaveImageEnv where
  file_exists : Bool
  video_found : Bool
  ffmpeg_ok : Bool
deriving DecidableEq

/-- Observable actions of `save_image` / `extract_frame_to_image`. -/
inductive ImageAction where
  | mkdirParents : ImageAction
  | logSkipExists : ImageAction
  | spawnExtractFfmpeg : ImageAction
  | spawnStreamFfmpeg : ImageAction
  | logNoVideo : ImageAction
  | logFfmpegError : ImageAction
  | logClosed : ImageAction
deriving DecidableEq

/-- The control flow of `save_image` (onvifeye.py lines 325-346), with
`extract_frame_to_image` (lines 304-322) inlined, as an action trace: the
existing-file check returns before any ffmpeg work, the extract mode polls
for the clip and gives up with a log when it never appears, and the direct
mode grabs a single frame from the stream. -/
def save_image_actions (grab_stills_from_video : Bool) (env : SaveImageEnv) :
    List ImageAction :=
  if env.file_exists then
    [ImageAction.mkdirParents, ImageAction.logSkipExists]
  else if grab_stills_from_video then
    if env.video_found then
      if env.ffmpeg_ok then
        [ImageAction.mkdirParents, ImageAction.spawnExtractFfmpeg, ImageAction.logClosed]
      else
        [ImageAction.mkdirParents, ImageAction.spawnExtractFfmpeg,
         ImageAction.logFfmpegError, ImageAction.logClosed]
    else
      [ImageAction.mkdirParents, ImageAction.logNoVideo]
  else
    if env.ffmpeg_ok then
      [ImageAction.mkdirParents, ImageAction.spawnStreamFfmpeg, ImageAction.logClosed]
    else
      [ImageAction.mkdirParents, ImageAction.spawnStreamFfmpeg, ImageAction.logFfmpegError]

/-- Strings at the level that Python `urllib.parse.quote` works on: the UTF-8
bytes of the text, each a natural number below 256. -/
abbrev Bytes := List Nat

/-- The byte is in the default safe set of `urllib.parse.quote`: the
always-safe characters (ASCII letters, digits, `_`, `.`, `-`, `~`) plus the
default safe slash. -/
def is_quote_safe (b : Nat) : Bool :=
  decide (65 ≤ b ∧ b ≤ 90) || decide (97 ≤ b ∧ b ≤ 122) || decide (48 ≤ b ∧ b ≤ 57) ||
    decide (b = 95) || decide (b = 46) || decide (b = 45) || decide (b = 126) ||
    decide (b = 47)

/-- Uppercase hexadecimal digit of a value below 16, as a byte. -/
def hex_digit (n : Nat) : Nat := if n < 10 then 48 + n else 55 + n

/-- Percent-encoding of one byte by `urllib.parse.quote`: safe bytes pass
through, others become `%` followed by two uppercase hex digits (the
arguments of `hex_digit` are reduced mod 16 only for totality; a byte is
below 256). -/
def quote_byte (b : Nat) : Bytes :=
  if is_quote_safe b then [b]
  else [37, hex_digit (b / 16 % 16), hex_digit (b % 16)]

/-- `urllib.parse.quote` with its default safe set, over UTF-8 bytes. -/
def quote (s : Bytes) : Bytes :=
  (s.map quote_byte).flatten

/-- Python `netloc.split` at the at-sign, last element, (onvifeye.py line 159): the suffix of
the authority after its last at-sign (byte 64), or the whole authority when
it has none. -/
def netloc_after_at : Bytes → Bytes
  | [] => []
  | b :: rest =>
      if b = 64 then netloc_after_at rest
      else if 64 ∈ rest then netloc_after_at rest
      else b :: rest

/-- A URL as decomposed by `urllib.parse.urlparse`: scheme, authority
(netloc), path, query and fragment, each as bytes. `urlparse` / `geturl`
round-tripping is modelled at this component level: `_replace(netloc=...)`
touches only the authority. -/
structure ParsedUrl where
  scheme : Bytes
  netloc : Bytes
  path : Bytes
  query : Bytes
  fragment : Bytes
deriving DecidableEq

/-- `uri_add_authentication` (onvifeye.py lines 155-161): quote the
username and password, strip anything before the last at-sign (byte 64) of the
authority, and reassemble the quoted username, a colon (byte 58), the
quoted password, an at-sign (byte 64) and the host part. -/
def uri_add_authentication (url : ParsedUrl) (username password : Bytes) : ParsedUrl :=
  ParsedUrl.mk url.scheme
    (quote username ++ 58 :: quote password ++ 64 :: netloc_after_at url.netloc)
    url.path url.query url.fragment

/-! ## Helper lemmas about the dict operations and the ledger -/

/-- Looking up a key that is absent from the left part of an appended dict
falls through to the right part. -/
theorem dict_lookup_append_of_none {α : Type} (k : String) {l : List (String × α)}
    (h : dict_lookup k l = none) (l2 : List (String × α)) :
    dict_lookup k (l ++ l2) = dict_lookup k l2 := by
  induction l with
  | nil => rfl
  | cons p rest ih =>
    obtain ⟨k2, v⟩ := p
    by_cases hk : k2 = k
    · simp [dict_lookup, hk] at h
    · have h2 : dict_lookup k rest = none := by simpa [dict_lookup, hk] using h
      simpa [dict_lookup, hk] using ih h2

/-- Assignment makes the assigned key map to the assigned value. -/
theorem dict_lookup_set_self {α : Type} (k : String) (v : α) (h : List (String × α)) :
    dict_lookup k (dict_set k v h) = some v := by
  induction h with
  | nil => simp [dict_set, dict_lookup]
  | cons p rest ih =>
    obtain ⟨k2, v2⟩ := p
    by_cases hk : k2 = k <;> simp [dict_set, dict_lookup, hk, ih]

/-- Assignment leaves the other keys unchanged. -/
theorem dict_lookup_set_other {α : Type} {k k2 : String} (hne : k2 ≠ k) (v : α)
    (h : List (String × α)) :
    dict_lookup k2 (dict_set k v h) = dict_lookup k2 h := by
  induction h with
  | nil => simp [dict_set, dict_lookup, Ne.symm hne]
  | cons p rest ih =>
    obtain ⟨k3, v3⟩ := p
    by_cases hk : k3 = k
    · simp [dict_set, dict_lookup, hk, Ne.symm hne]
    · by_cases hk2 : k3 = k2 <;> simp [dict_set, dict_lookup, hk, hk2, hne, ih]

/-- Unfolding one step of `mark_as_handled`. -/
theorem mark_as_handled_cons {α : Type} (h : List (String × α)) (p : String × α)
    (l : List (String × α)) :
    mark_as_handled h (p :: l) = mark_as_handled (dict_set p.1 p.2 h) l := rfl

/-- Marking a snapshot does not touch keys outside the snapshot. -/
theorem dict_lookup_mark_of_not_mem {α : Type} (k : String) (l : List (String × α)) :
    ∀ h : List (String × α), k ∉ dict_keys l →
      dict_lookup k (mark_as_handled h l) = dict_lookup k h := by
  induction l with
  | nil => intro h _; rfl
  | cons p rest ih =>
    intro h hk
    simp only [dict_keys, List.map_cons, List.mem_cons, not_or] at hk
    rw [mark_as_handled_cons, ih _ (by simpa [dict_keys] using hk.2)]
    exact dict_lookup_set_other hk.1 _ _

/-- After marking a snapshot with distinct keys, every entry of the snapshot
is recorded in the ledger with its own instant. -/
theorem dict_lookup_mark_of_mem {α : Type} (l : List (String × α)) :
    ∀ h : List (String × α), (dict_keys l).Nodup →
      ∀ p ∈ l, dict_lookup p.1 (mark_as_handled h l) = some p.2 := by
  induction l with
  | nil => intro h _ p hp; cases hp
  | cons q rest ih =>
    intro h hnd p hp
    have hnd2 : (dict_keys rest).Nodup := by
      simpa [dict_keys] using (List.nodup_cons.mp (by simpa [dict_keys] using hnd)).2
    rcases List.mem_cons.mp hp with rfl | hmem
    · have hq : p.1 ∉ dict_keys rest :=
        (List.nodup_cons.mp (by simpa [dict_keys] using hnd)).1
      rw [mark_as_handled_cons, dict_lookup_mark_of_not_mem _ _ _ hq]
      exact dict_lookup_set_self _ _ _
    · rw [mark_as_handled_cons]
      exact ih _ hnd2 p hmem

/-- After marking a non-empty snapshot, at least one of its entries (the
last one, whose assignment is never overwritten) is recorded exactly. -/
theorem mark_exists_recorded {α : Type} (l : List (String × α)) :
    ∀ h : List (String × α), l ≠ [] →
      ∃ p ∈ l, dict_lookup p.1 (mark_as_handled h l) = some p.2 := by
  induction l with
  | nil => intro h hne; exact absurd rfl hne
  | cons q rest ih =>
    intro h _
    cases rest with
    | nil =>
      refine ⟨q, List.mem_cons_self q [], ?_⟩
      rw [mark_as_handled_cons]
      exact dict_lookup_set_self _ _ _
    | cons r rest2 =>
      obtain ⟨p, hmem, hlook⟩ := ih (dict_set q.1 q.2 h) (by simp)
      refine ⟨p, List.mem_cons_of_mem _ hmem, ?_⟩
      rw [mark_as_handled_cons]
      exact hlook

/-- Marking a non-empty snapshot makes `has_been_handled` hold for it. -/
theorem has_been_handled_mark {α : Type} [DecidableEq α] (l h : List (String × α))
    (hne : l ≠ []) :
    has_been_handled (mark_as_handled h l) l = true := by
  obtain ⟨p, hmem, hlook⟩ := mark_exists_recorded l h hne
  simp only [has_been_handled, List.any_eq_true, decide_eq_true_eq]
  exact ⟨p, hmem, hlook⟩

/-! ## Helper lemmas about percent-encoding and the authority split -/

/-- Every byte emitted by `quote_byte` is a safe byte, a percent sign, or an
uppercase hex digit of a value below 16. -/
theorem mem_quote_byte_cases {c b : Nat} (hc : c ∈ quote_byte b) :
    is_quote_safe c = true ∨ c = 37 ∨ ∃ m, m < 16 ∧ c = hex_digit m := by
  unfold quote_byte at hc
  by_cases hs : is_quote_safe b
  · rw [if_pos hs] at hc
    simp only [List.mem_singleton] at hc
    subst hc
    exact Or.inl hs
  · rw [if_neg hs] at hc
    simp only [List.mem_cons, List.not_mem_nil, or_false] at hc
    rcases hc with rfl | rfl | rfl
    · exact Or.inr (Or.inl rfl)
    · exact Or.inr (Or.inr ⟨b / 16 % 16, Nat.mod_lt _ (by norm_num), rfl⟩)
    · exact Or.inr (Or.inr ⟨b % 16, Nat.mod_lt _ (by norm_num), rfl⟩)

/-- Every byte of a quoted string is a safe byte, a percent sign, or an
uppercase hex digit. -/
theorem mem_quote_cases {c : Nat} {s : Bytes} (hc : c ∈ quote s) :
    is_quote_safe c = true ∨ c = 37 ∨ ∃ m, m < 16 ∧ c = hex_digit m := by
  unfold quote at hc
  rw [List.mem_flatten] at hc
  obtain ⟨l, hl, hcl⟩ := hc
  obtain ⟨b, _, rfl⟩ := List.mem_map.mp hl
  exact mem_quote_byte_cases hcl

/-- The at-sign (byte 64) never occurs in the output of `quote`. -/
theorem at_not_mem_quote (s : Bytes) : (64 : Nat) ∉ quote s := by
  intro h
  rcases mem_quote_cases h with hs | h37 | ⟨m, hm, he⟩
  · exact absurd hs (by decide)
  · exact absurd h37 (by decide)
  · rw [hex_digit] at he
    by_cases hm10 : m < 10
    · rw [if_pos hm10] at he; omega
    · rw [if_neg hm10] at he; omega

/-- The colon (byte 58) never occurs in the output of `quote`. -/
theorem colon_not_mem_quote (s : Bytes) : (58 : Nat) ∉ quote s := by
  intro h
  rcases mem_quote_cases h with hs | h37 | ⟨m, hm, he⟩
  · exact absurd hs (by decide)
  · exact absurd h37 (by decide)
  · rw [hex_digit] at he
    by_cases hm10 : m < 10
    · rw [if_pos hm10] at he; omega
    · rw [if_neg hm10] at he; omega

/-- The result of the authority split contains no at-sign. -/
theorem netloc_after_at_no_at (l : Bytes) : (64 : Nat) ∉ netloc_after_at l := by
  induction l with
  | nil => simp [netloc_after_at]
  | cons b rest ih =>
    by_cases hb : b = 64
    · simpa [netloc_after_at, hb] using ih
    · by_cases hm : (64 : Nat) ∈ rest
      · simpa [netloc_after_at, hb, hm] using ih
      · rw [show netloc_after_at (b :: rest) = b :: rest by simp [netloc_after_at, hb, hm]]
        simp only [List.mem_cons, not_or]
        exact ⟨fun e => hb e.symm, hm⟩

/-- The authority split is the identity on an authority without at-signs. -/
theorem netloc_after_at_of_no_at {l : Bytes} (h : (64 : Nat) ∉ l) :
    netloc_after_at l = l := by
  induction l with
  | nil => rfl
  | cons b rest ih =>
    have hb : b ≠ 64 := fun e => h (by simp [e])
    have hm : (64 : Nat) ∉ rest := fun e => h (List.mem_cons_of_mem _ e)
    simp [netloc_after_at, hb, hm]

/-- Splitting an authority of the shape `userinfo ++ at-sign ++ host`,
where the host has no at-sign, yields exactly the host. -/
theorem netloc_after_at_append (a b : Bytes) (h : (64 : Nat) ∉ b) :
    netloc_after_at (a ++ 64 :: b) = b := by
  induction a with
  | nil => simp [netloc_after_at, netloc_after_at_of_no_at h]
  | cons c a2 ih =>
    by_cases hc : c = 64 <;>
      simp [netloc_after_at, hc, ih, show (64 : Nat) ∈ a2 ++ 64 :: b by simp]

/-! ## Concrete configurations used by the claim instances -/

/-- A camera configuration whose `camera_target_events` is the wildcard and
whose `camera_event_exec` is set, as a camera with an external handler
listening to all events would be configured. -/
def wildcard_exec_config : CameraConfig :=
  CameraConfig.mk "cam1" TargetEvents.wildcard "/usr/local/bin/handler" ["custom"] 30 true

/-- A camera configuration with the default explicit target list and a
non-default `camera_save_folder`. -/
def plain_config : CameraConfig :=
  CameraConfig.mk "cam1" (TargetEvents.names ["IsPeople", "IsCar"]) "" ["custom"] 30 true

/-! ## The claims -/

/-- C1 (counterexample): the claim that no sink ever acts on a detection
key ending in `_False` fails for `EventExecHandler`: its filter checks only
`is_event_targeted`, so with `camera_target_events` set to the wildcard the
fresh key `IsPeople_False` (which does end in the sentinel suffix) is passed
to `execute_external_handler`, which builds a descriptor for it in the argv
of the spawned handler process. -/
theorem C1_counterexample :
    (exec_handler_step wildcard_exec_config ([] : List (String × DT))
        [("IsPeople_False", DT.mk 2025 1 2 3 4 5)]).1
      = some [("IsPeople_False", DT.mk 2025 1 2 3 4 5)]
    ∧ execute_external_handler_argv true "/usr/local/bin/handler" "cam1"
        [("IsPeople_False", DT.mk 2025 1 2 3 4 5)]
      = some ["/usr/local/bin/handler", "cam1", "IsPeople_False/20250102-030405"]
    ∧ str_ends_with "IsPeople_False" EVENT_NOT_HAPPENING_SUFFIX = true := by
  refine ⟨by decide, by decide, by decide⟩

/-- C1 (amended): the snapshot that `MediaSaverEventHandler.handle_events`
hands to the saver functions of VideoWriter and ImageWriter never contains
a key ending in `_False`, for every configuration including the wildcard;
the snapshot that `EventExecHandler.handle_events` hands to
`execute_external_handler`, however, is filtered by targeting only, so it
contains exactly the targeted keys of the table, `_False` keys included. -/
theorem C1_relevance_filters {α : Type} (cfg : CameraConfig)
    (detections : List (String × α)) (k : String) :
    (k ∈ dict_keys (media_relevant_detections cfg detections) →
      str_ends_with k EVENT_NOT_HAPPENING_SUFFIX = false)
    ∧ (k ∈ dict_keys (exec_relevant_detections cfg detections) ↔
        k ∈ dict_keys detections ∧ is_event_targeted cfg k = true) := by
  constructor
  · intro hk
    simp only [dict_keys, media_relevant_detections, List.mem_map, List.mem_filter,
      Bool.and_eq_true, Bool.not_eq_true'] at hk
    obtain ⟨p, ⟨_, hend, _⟩, rfl⟩ := hk
    exact hend
  · simp only [dict_keys, exec_relevant_detections, List.mem_map, List.mem_filter]
    constructor
    · rintro ⟨p, ⟨hmem, htar⟩, rfl⟩
      exact ⟨⟨p, hmem, rfl⟩, htar⟩
    · rintro ⟨⟨p, hmem, rfl⟩, htar⟩
      exact ⟨p, ⟨hmem, htar⟩, rfl⟩

/-- C1 (witness for the amended theorem): a non-sentinel key satisfies the
media conclusion, and under the wildcard configuration a `_False` key is in
the snapshot passed to the external handler. -/
theorem C1_relevance_filters_witness :
    str_ends_with "IsPeople" EVENT_NOT_HAPPENING_SUFFIX = false
    ∧ "IsPeople_False" ∈
        dict_keys (exec_relevant_detections wildcard_exec_config
          [("IsPeople_False", (5 : Nat))]) := by
  constructor
  · exact (C1_relevance_filters wildcard_exec_config [("IsPeople", (5 : Nat))] "IsPeople").1
      (by decide)
  · exact (C1_relevance_filters wildcard_exec_config [("IsPeople_False", (5 : Nat))]
      "IsPeople_False").2.mpr ⟨by decide, by decide⟩

/-- C2: every handler acts at most once on a trigger. For the media
handlers (VideoWriter and ImageWriter share
`MediaSaverEventHandler.handle_events`): the action is skipped whenever
some key of the snapshot is already in the ledger with the exact same
instant; when the action runs, every key of the snapshot ends up recorded
with its instant (keys of a dict snapshot are distinct); and repeating the
same non-empty snapshot right after a pass never acts again. For
ExternalExecutor (`EventExecHandler.handle_events`, which marks the ledger
only when it acts): the action is likewise skipped whenever some key of its
filtered snapshot is already recorded with the exact same instant; when it
acts, the dict it passes to the handler process is its filtered snapshot
and every key of it ends up recorded with its instant; and an immediately
repeated pass over the same detection table never acts, whatever the first
pass did. -/
theorem C2_handler_at_most_once {α : Type} [DecidableEq α] (cfg : CameraConfig)
    (handled relevant detections : List (String × α)) :
    (has_been_handled handled relevant = true →
      (media_handler_step handled relevant).1 = false)
    ∧ ((media_handler_step handled relevant).1 = true →
        (dict_keys relevant).Nodup →
        ∀ p ∈ relevant,
          dict_lookup p.1 (media_handler_step handled relevant).2 = some p.2)
    ∧ (relevant ≠ [] →
        (media_handler_step (media_handler_step handled relevant).2 relevant).1 = false)
    ∧ (has_been_handled handled (exec_relevant_detections cfg detections) = true →
        (exec_handler_step cfg handled detections).1 = none)
    ∧ (∀ r, (exec_handler_step cfg handled detections).1 = some r →
        r = exec_relevant_detections cfg detections
        ∧ ((dict_keys r).Nodup →
            ∀ p ∈ r,
              dict_lookup p.1 (exec_handler_step cfg handled detections).2 = some p.2))
    ∧ (exec_handler_step cfg (exec_handler_step cfg handled detections).2 detections).1
        = none := by
  refine ⟨?_, ?_, ?_, ?_, ?_, ?_⟩
  · intro hbh
    by_cases h0 : relevant = [] <;> simp [media_handler_step, h0, hbh]
  · intro hact hnd p hp
    by_cases h0 : relevant = []
    · simp [media_handler_step, h0] at hact
    · by_cases hbh : has_been_handled handled relevant = true
      · simp [media_handler_step, h0, hbh] at hact
      · have hstep : (media_handler_step handled relevant).2
            = mark_as_handled handled relevant := by
          simp [media_handler_step, h0, hbh]
        rw [hstep]
        exact dict_lookup_mark_of_mem relevant handled hnd p hp
  · intro hne
    have hstep : (media_handler_step handled relevant).2
        = mark_as_handled handled relevant := by
      by_cases hbh : has_been_handled handled relevant = true <;>
        simp [media_handler_step, hne, hbh]
    rw [hstep]
    simp [media_handler_step, hne, has_been_handled_mark relevant handled hne]
  · intro hbh
    by_cases h0 : exec_relevant_detections cfg detections = [] <;>
      simp [exec_handler_step, h0, hbh]
  · intro r hr
    by_cases h0 : exec_relevant_detections cfg detections = []
    · simp [exec_handler_step, h0] at hr
    · by_cases hbh : has_been_handled handled (exec_relevant_detections cfg detections) = true
      · simp [exec_handler_step, h0, hbh] at hr
      · have hr2 : r = exec_relevant_detections cfg detections := by
          simp [exec_handler_step, h0, hbh] at hr
          exact hr.symm
        subst hr2
        have hstep : (exec_handler_step cfg handled detections).2
            = mark_as_handled handled (exec_relevant_detections cfg detections) := by
          simp [exec_handler_step, h0, hbh]
        refine ⟨rfl, fun hnd p hp => ?_⟩
        rw [hstep]
        exact dict_lookup_mark_of_mem _ handled hnd p hp
  · by_cases h0 : exec_relevant_detections cfg detections = []
    · simp [exec_handler_step, h0]
    · by_cases hbh : has_been_handled handled (exec_relevant_detections cfg detections) = true
      · simp [exec_handler_step, h0, hbh]
      · have hstep : (exec_handler_step cfg handled detections).2
            = mark_as_handled handled (exec_relevant_detections cfg detections) := by
          simp [exec_handler_step, h0, hbh]
        rw [hstep]
        simp [exec_handler_step, h0, has_been_handled_mark _ handled h0]

/-- C2 (witness): a fresh two-key trigger acts on the media step, records
both keys, and a second pass over the same trigger is skipped; the exec
step on a fresh targeted detection records it and an immediately repeated
pass does not act again. -/
theorem C2_handler_at_most_once_witness :
    (media_handler_step ([] : List (String × Nat)) [("IsPeople", 0), ("IsCar", 0)]).1 = true
    ∧ dict_lookup "IsCar"
        (media_handler_step ([] : List (String × Nat)) [("IsPeople", 0), ("IsCar", 0)]).2
      = some 0
    ∧ (media_handler_step
        (media_handler_step ([] : List (String × Nat)) [("IsPeople", 0), ("IsCar", 0)]).2
        [("IsPeople", 0), ("IsCar", 0)]).1 = false
    ∧ dict_lookup "IsPeople"
        (exec_handler_step plain_config ([] : List (String × Nat)) [("IsPeople", 0)]).2
      = some 0
    ∧ (exec_handler_step plain_config
        (exec_handler_step plain_config ([] : List (String × Nat)) [("IsPeople", 0)]).2
        [("IsPeople", 0)]).1 = none := by
  refine ⟨by decide, ?_, ?_, ?_, ?_⟩
  · exact (C2_handler_at_most_once plain_config ([] : List (String × Nat))
      [("IsPeople", 0), ("IsCar", 0)] [("IsPeople", 0)]).2.1
      (by decide) (by decide) ("IsCar", 0) (by decide)
  · exact (C2_handler_at_most_once plain_config ([] : List (String × Nat))
      [("IsPeople", 0), ("IsCar", 0)] [("IsPeople", 0)]).2.2.1 (by decide)
  · exact ((C2_handler_at_most_once plain_config ([] : List (String × Nat))
      [("IsPeople", 0), ("IsCar", 0)] [("IsPeople", 0)]).2.2.2.2.1
      [("IsPeople", 0)] (by decide)).2 (by decide) ("IsPeople", 0) (by decide)
  · exact (C2_handler_at_most_once plain_config ([] : List (String × Nat))
      [("IsPeople", 0), ("IsCar", 0)] [("IsPeople", 0)]).2.2.2.2.2

/-- C3 (code bug): the eviction pass compares the `.seconds` attribute of
the timedelta, which is the age modulo one day, against the expiry, so an
entry whose age is exactly one day (86400 seconds, far beyond the 60-second
default expiry) is kept by the pass, contradicting the claim that every
entry older than the expiry is removed on the next pass for arbitrary
ages. -/
theorem C3_eviction_keeps_day_old_entry :
    evict_detections 86400 DEFAULT_DETECTION_EXPIRY_SECONDS [("IsPeople", 0)]
      = [("IsPeople", 0)]
    ∧ 86400 - 0 > DEFAULT_DETECTION_EXPIRY_SECONDS := by
  refine ⟨by decide, by decide⟩

/-- C4 (counterexample): on an ffmpeg timeout the claim says `save_video`
terminates the child process, but the trace of `save_video` on a timing-out
environment contains no terminate action at all (the TimeoutExpired branch
only logs and returns). -/
theorem C4_counterexample :
    SaveAction.terminateChild ∉
      save_video_actions plain_config 30 (SaveVideoEnv.mk false FfmpegWait.timedOut)
    ∧ SaveAction.logTimeoutError ∈
      save_video_actions plain_config 30 (SaveVideoEnv.mk false FfmpegWait.timedOut) := by
  refine ⟨by decide, by decide⟩

/-- C4 (amended): when the ffmpeg child does not complete within
`clip_seconds + 30` seconds, `save_video` waits with exactly that timeout,
logs the timeout, and returns failure without retrying (a single spawn and
no completion log); the synthetic VideoEnded dispatch of the finally clause
still runs when targeted; but the child process is not terminated. -/
theorem C4_timeout_behavior (cfg : CameraConfig) (clip_seconds : Nat)
    (env : SaveVideoEnv) (hex2 : env.file_exists = false)
    (hw : env.ffmpeg_wait = FfmpegWait.timedOut) :
    save_video_actions cfg clip_seconds env
      = [SaveAction.mkdirParents, SaveAction.spawnFfmpeg,
         SaveAction.waitChild (clip_seconds + 30), SaveAction.logTimeoutError] ++
        (if is_event_targeted cfg VIDEO_ENDED_SYNTHETIC_EVENT then
          [SaveAction.execVideoEnded] else [])
    ∧ SaveAction.terminateChild ∉ save_video_actions cfg clip_seconds env
    ∧ SaveAction.logClosed ∉ save_video_actions cfg clip_seconds env := by
  obtain ⟨fe, fw⟩ := env
  simp only at hex2 hw
  subst hex2
  subst hw
  refine ⟨rfl, ?_, ?_⟩ <;>
    by_cases ht : is_event_targeted cfg VIDEO_ENDED_SYNTHETIC_EVENT = true <;>
      simp [save_video_actions, ht]

/-- C4 (witness for the amended theorem): the amended behavior at a
concrete configuration and timing-out environment. -/
theorem C4_timeout_behavior_witness :
    save_video_actions plain_config 30 (SaveVideoEnv.mk false FfmpegWait.timedOut)
      = [SaveAction.mkdirParents, SaveAction.spawnFfmpeg,
         SaveAction.waitChild (30 + 30), SaveAction.logTimeoutError] ++
        (if is_event_targeted plain_config VIDEO_ENDED_SYNTHETIC_EVENT then
          [SaveAction.execVideoEnded] else [])
    ∧ SaveAction.terminateChild ∉
        save_video_actions plain_config 30 (SaveVideoEnv.mk false FfmpegWait.timedOut)
    ∧ SaveAction.logClosed ∉
        save_video_actions plain_config 30 (SaveVideoEnv.mk false FfmpegWait.timedOut) :=
  C4_timeout_behavior plain_config 30 (SaveVideoEnv.mk false FfmpegWait.timedOut) rfl rfl

/-- C5 (code bug): `save_video` and `save_image` build their paths from the
module-level `VIDEO_DIR` and `IMAGE_DIR` under the home directory, not from
the configured `camera_save_folder` (which is only validated for
writability); the basename is the strftime of the incident first-seen
instant, as the claim says. Evaluated at a configuration whose save folder
is `custom`: the paths still start with the home-relative data directory. -/
theorem C5_save_paths_use_module_dirs :
    save_video_path ["HOME"] plain_config [("IsPeople", DT.mk 2025 1 2 3 4 5)]
      = ["HOME", "onvifeye", "videos", "cam1", "20250102-030405.mp4"]
    ∧ save_image_path ["HOME"] plain_config [("IsPeople", DT.mk 2025 1 2 3 4 5)]
      = ["HOME", "onvifeye", "images", "cam1", "20250102-030405.jpg"]
    ∧ plain_config.camera_save_folder = ["custom"] := by
  refine ⟨by decide, by decide, by decide⟩

/-- C6: inserting a detection key that is already present is a no-op, so
inserting a key twice yields the same table as inserting it once and the
stored first-seen instant is unchanged. -/
theorem C6_insert_detection_idempotent {α : Type} (table : List (String × α))
    (k : String) (t1 t2 : α) :
    insert_detection (insert_detection table k t1) k t2 = insert_detection table k t1 := by
  unfold insert_detection
  cases hl : dict_lookup k table with
  | some t => simp [hl]
  | none =>
    have h1 : dict_lookup k (table ++ [(k, t1)]) = some t1 := by
      rw [dict_lookup_append_of_none k hl]
      simp [dict_lookup]
    simp [hl, h1]

/-- C7: the key decoded from a SimpleItem is the name exactly when the
value is the string true and otherwise the name with `_False` appended, and
processing the item inserts that key with the current instant exactly when
it is absent, leaving the table unchanged when it is present. -/
theorem C7_decode_key_and_insert {α : Type} (detections : List (String × α))
    (item : SimpleItem) (now : α) :
    (item.value = "true" → detection_key item = item.name)
    ∧ (item.value ≠ "true" →
        detection_key item = item.name ++ EVENT_NOT_HAPPENING_SUFFIX)
    ∧ (dict_lookup (detection_key item) detections = none →
        listen_decode_item detections item now = detections ++ [(detection_key item, now)]
        ∧ dict_lookup (detection_key item) (listen_decode_item detections item now)
            = some now)
    ∧ (∀ t, dict_lookup (detection_key item) detections = some t →
        listen_decode_item detections item now = detections) := by
  refine ⟨fun h => by simp [detection_key, h], fun h => by simp [detection_key, h],
    fun habs => ⟨by simp [listen_decode_item, insert_detection, habs], ?_⟩,
    fun t hpres => by simp [listen_decode_item, insert_detection, hpres]⟩
  simp only [listen_decode_item, insert_detection, habs, Option.isSome_none,
    Bool.false_eq_true, if_false]
  rw [dict_lookup_append_of_none _ habs]
  simp [dict_lookup]

/-- C7 (witness): an inactive IsPeople item decodes to `IsPeople_False` and
its insertion into an empty table records the current instant. -/
theorem C7_decode_key_and_insert_witness :
    detection_key (SimpleItem.mk "IsPeople" "false")
      = "IsPeople" ++ EVENT_NOT_HAPPENING_SUFFIX
    ∧ dict_lookup (detection_key (SimpleItem.mk "IsPeople" "false"))
        (listen_decode_item ([] : List (String × Nat)) (SimpleItem.mk "IsPeople" "false") 7)
      = some 7 := by
  refine ⟨(C7_decode_key_and_insert ([] : List (String × Nat))
      (SimpleItem.mk "IsPeople" "false") 7).2.1 (by decide), ?_⟩
  exact ((C7_decode_key_and_insert ([] : List (String × Nat))
      (SimpleItem.mk "IsPeople" "false") 7).2.2.1 (by decide)).2

/-- C8: for every parsed input URL, username and password, the credential
folding rewrites the authority to the percent-encoded username, a colon,
the percent-encoded password and an at-sign, followed by the input
authority with any pre-existing userinfo (everything up to its last
at-sign) stripped; scheme, path, query and fragment are preserved, and the
encoded userinfo is unambiguous because the encodings contain no at-sign
and the encoded username contains no colon. -/
theorem C8_uri_add_authentication_correct (url : ParsedUrl) (username password : Bytes) :
    (uri_add_authentication url username password).scheme = url.scheme
    ∧ (uri_add_authentication url username password).path = url.path
    ∧ (uri_add_authentication url username password).query = url.query
    ∧ (uri_add_authentication url username password).fragment = url.fragment
    ∧ (uri_add_authentication url username password).netloc
        = (quote username ++ 58 :: quote password) ++ 64 :: netloc_after_at url.netloc
    ∧ (64 : Nat) ∉ quote username
    ∧ (64 : Nat) ∉ quote password
    ∧ (58 : Nat) ∉ quote username
    ∧ (64 : Nat) ∉ netloc_after_at url.netloc := by
  refine ⟨rfl, rfl, rfl, rfl, ?_, at_not_mem_quote username, at_not_mem_quote password,
    colon_not_mem_quote username, netloc_after_at_no_at url.netloc⟩
  simp [uri_add_authentication]

/-- C10: folding the same credentials into a URL twice yields the same
result as folding them once, because the inserted userinfo is
percent-encoded (no raw at-sign) and the second application strips it
again. -/
theorem C10_uri_add_authentication_idempotent (url : ParsedUrl)
    (username password : Bytes) :
    uri_add_authentication (uri_add_authentication url username password) username password
      = uri_add_authentication url username password := by
  have h1 : netloc_after_at
      (quote username ++ 58 :: quote password ++ 64 :: netloc_after_at url.netloc)
      = netloc_after_at url.netloc := by
    have h2 := netloc_after_at_append (quote username ++ 58 :: quote password)
      (netloc_after_at url.netloc) (netloc_after_at_no_at url.netloc)
    simpa [List.append_assoc] using h2
  show ParsedUrl.mk url.scheme
      (quote username ++ 58 :: quote password ++ 64 :: netloc_after_at
        (quote username ++ 58 :: quote password ++ 64 :: netloc_after_at url.netloc))
      url.path url.query url.fragment
    = ParsedUrl.mk url.scheme
      (quote username ++ 58 :: quote password ++ 64 :: netloc_after_at url.netloc)
      url.path url.query url.fragment
  rw [h1]

/-- C9: when the target media file already exists, both `save_video` and
`save_image` log the skip and return immediately: their traces contain no
ffmpeg spawn of any kind (nothing is written, so the existing file is not
modified) and no other action. -/
theorem C9_skip_when_file_exists (cfg : CameraConfig) (clip_seconds : Nat)
    (venv : SaveVideoEnv) (grab_stills_from_video : Bool) (ienv : SaveImageEnv)
    (hv : venv.file_exists = true) (hi : ienv.file_exists = true) :
    save_video_actions cfg clip_seconds venv
      = [SaveAction.mkdirParents, SaveAction.logSkipExists]
    ∧ SaveAction.spawnFfmpeg ∉ save_video_actions cfg clip_seconds venv
    ∧ save_image_actions grab_stills_from_video ienv
      = [ImageAction.mkdirParents, ImageAction.logSkipExists]
    ∧ ImageAction.spawnExtractFfmpeg ∉ save_image_actions grab_stills_from_video ienv
    ∧ ImageAction.spawnStreamFfmpeg ∉ save_image_actions grab_stills_from_video ienv := by
  have h1 : save_video_actions cfg clip_seconds venv
      = [SaveAction.mkdirParents, SaveAction.logSkipExists] := by
    simp [save_video_actions, hv]
  have h2 : save_image_actions grab_stills_from_video ienv
      = [ImageAction.mkdirParents, ImageAction.logSkipExists] := by
    simp [save_image_actions, hi]
  refine ⟨h1, by simp [h1], h2, by simp [h2], by simp [h2]⟩

/-- C9 (witness): the skip at a concrete configuration and environments
whose target files exist. -/
theorem C9_skip_when_file_exists_witness :
    save_video_actions plain_config 30 (SaveVideoEnv.mk true FfmpegWait.completed)
      = [SaveAction.mkdirParents, SaveAction.logSkipExists]
    ∧ SaveAction.spawnFfmpeg ∉
        save_video_actions plain_config 30 (SaveVideoEnv.mk true FfmpegWait.completed)
    ∧ save_image_actions true (SaveImageEnv.mk true true true)
      = [ImageAction.mkdirParents, ImageAction.logSkipExists]
    ∧ ImageAction.spawnExtractFfmpeg ∉ save_image_actions true (SaveImageEnv.mk true true true)
    ∧ ImageAction.spawnStreamFfmpeg ∉
        save_image_actions true (SaveImageEnv.mk true true true) :=
  C9_skip_when_file_exists plain_config 30 (SaveVideoEnv.mk true FfmpegWait.completed)
    true (SaveImageEnv.mk true true true) rfl rfl

end Onvifeye
